import Mathlib

/-!
Verification development for the PhysiCode iso-surface pipeline.

Real-valued scalar fields follow `src/core/fields.py` and `src/core/tpms.py`.
The mesh pipeline (`src/geometry/marching_cubes.py`, `src/geometry/industrial.py`)
is embedded over exact rationals: Python floats are modelled as ℚ, so every
comparison and arithmetic step of the source is represented exactly and the
embedded pipeline is executable.  Calls into third-party libraries
(scikit-image's `measure.marching_cubes`, trimesh mesh properties and cleanup
methods) have no source under `src/`; those parts are modelled from the
specification (sections 3, 4.3, 4.4 and 4.5) and each such definition carries a
doc comment saying so.
-/

namespace PhysiCode

/-- Base class of `src/core/fields.py`.  A concrete field stores the affine
parameters `scale` and `offset` (the Python `np.array` offset is modelled as
three components) together with its `evaluate` function. -/
structure ScalarField where
  scale : ℝ
  offsetX : ℝ
  offsetY : ℝ
  offsetZ : ℝ
  evaluate : ℝ → ℝ → ℝ → ℝ

/-- `ScalarField.__call__` (src/core/fields.py lines 80-105): the affine
transform is applied to the coordinates before delegating to `evaluate`. -/
def ScalarField.call (F : ScalarField) (x y z : ℝ) : ℝ :=
  F.evaluate (x * F.scale + F.offsetX) (y * F.scale + F.offsetY) (z * F.scale + F.offsetZ)

/-- Elementwise combination of three equal-length sequences; this is the
meaning of numpy's broadcast arithmetic on equal-length coordinate arrays. -/
def mapThree (f : α → β → γ → δ) : List α → List β → List γ → List δ
  | a :: as, b :: bs, c :: cs => f a b c :: mapThree f as bs cs
  | _, _, _ => []

/-- `ScalarField.__call__` on equal-length coordinate sequences: numpy applies
the affine transform elementwise and the subclass `evaluate` acts
elementwise on the transformed sequences. -/
def ScalarField.callSeq (F : ScalarField) (xs ys zs : List ℝ) : List ℝ :=
  mapThree F.evaluate
    (xs.map (fun x => x * F.scale + F.offsetX))
    (ys.map (fun y => y * F.scale + F.offsetY))
    (zs.map (fun z => z * F.scale + F.offsetZ))

/-- Gyroid TPMS field (src/core/tpms.py lines 16-88): constructed with a scale
(offset defaults to the origin) and a thickness parameter. -/
structure Gyroid where
  scale : ℝ
  thickness : ℝ

/-- Core Gyroid equation (src/core/tpms.py lines 79-81). -/
noncomputable def gyroidValue (x y z : ℝ) : ℝ :=
  Real.sin x * Real.cos y + Real.sin y * Real.cos z + Real.sin z * Real.cos x

/-- `Gyroid.evaluate` (src/core/tpms.py lines 58-88): the base equation, with
`|value| - thickness` substituted when `thickness > 0`. -/
noncomputable def Gyroid.evaluate (g : Gyroid) (x y z : ℝ) : ℝ :=
  let value := gyroidValue x y z
  if 0 < g.thickness then |value| - g.thickness else value

/-- The `ScalarField` view of a Gyroid: `Gyroid.__init__` forwards `scale` to
the base class, leaving the offset at `(0, 0, 0)`. -/
noncomputable def Gyroid.toField (g : Gyroid) : ScalarField :=
  ScalarField.mk g.scale 0 0 0 g.evaluate

/-- Calling a Gyroid instance: the inherited `ScalarField.__call__`. -/
noncomputable def Gyroid.call (g : Gyroid) (x y z : ℝ) : ℝ :=
  g.toField.call x y z

/-- Schwarz P TPMS field (src/core/tpms.py lines 91-160). -/
structure SchwarzP where
  scale : ℝ
  thickness : ℝ

/-- Core Schwarz P equation (src/core/tpms.py line 153). -/
noncomputable def schwarzPValue (x y z : ℝ) : ℝ :=
  Real.cos x + Real.cos y + Real.cos z

/-- `SchwarzP.evaluate` (src/core/tpms.py lines 132-160). -/
noncomputable def SchwarzP.evaluate (s : SchwarzP) (x y z : ℝ) : ℝ :=
  let value := schwarzPValue x y z
  if 0 < s.thickness then |value| - s.thickness else value

/-- The `ScalarField` view of a Schwarz P field. -/
noncomputable def SchwarzP.toField (s : SchwarzP) : ScalarField :=
  ScalarField.mk s.scale 0 0 0 s.evaluate

/-- Calling a SchwarzP instance: the inherited `ScalarField.__call__`. -/
noncomputable def SchwarzP.call (s : SchwarzP) (x y z : ℝ) : ℝ :=
  s.toField.call x y z

/-- A scalar field for the mesh pipeline, with float coordinates modelled as
exact rationals; same shape as `ScalarField` of `src/core/fields.py`. -/
structure ScalarFieldQ where
  scale : ℚ
  offsetX : ℚ
  offsetY : ℚ
  offsetZ : ℚ
  evaluate : ℚ → ℚ → ℚ → ℚ

/-- `ScalarField.__call__` for pipeline fields. -/
def ScalarFieldQ.call (F : ScalarFieldQ) (x y z : ℚ) : ℚ :=
  F.evaluate (x * F.scale + F.offsetX) (y * F.scale + F.offsetY) (z * F.scale + F.offsetZ)

/-- A 3D point with rational coordinates. -/
abbrev Pt : Type := ℚ × ℚ × ℚ

def ptAdd (p q : Pt) : Pt :=
  (p.1 + q.1, p.2.1 + q.2.1, p.2.2 + q.2.2)

def ptSub (p q : Pt) : Pt :=
  (p.1 - q.1, p.2.1 - q.2.1, p.2.2 - q.2.2)

def ptSmul (t : ℚ) (p : Pt) : Pt :=
  (t * p.1, t * p.2.1, t * p.2.2)

def ptCross (p q : Pt) : Pt :=
  (p.2.1 * q.2.2 - p.2.2 * q.2.1,
   p.2.2 * q.1 - p.1 * q.2.2,
   p.1 * q.2.1 - p.2.1 * q.1)

def ptDot (p q : Pt) : ℚ :=
  p.1 * q.1 + p.2.1 * q.2.1 + p.2.2 * q.2.2

def ptNormSq (p : Pt) : ℚ :=
  p.1 ^ 2 + p.2.1 ^ 2 + p.2.2 ^ 2

/-- The `trimesh.Trimesh` data consumed and produced by the pipeline: vertex
positions, face index triples, and per-vertex normals. -/
structure MeshQ where
  vertices : List Pt
  faces : List (ℕ × ℕ × ℕ)
  normals : List Pt
deriving DecidableEq

/-- Python exception outcomes of the pipeline.  `invalidInput` is the error
condition named by the specification; no code path of `src/` produces it.
`zeroDivisionError` is Python's `ZeroDivisionError`. -/
inductive PyErr where
  | invalidInput
  | zeroDivisionError
deriving DecidableEq

/-- `np.linspace` on an inclusive interval: `n` evenly spaced samples from `a`
to `b`; a single sample sits at `a`, zero samples give the empty list. -/
def linspace (a b : ℚ) (n : ℕ) : List ℚ :=
  if n = 1 then [a]
  else (List.range n).map (fun i => a + (b - a) * i / ((n : ℚ) - 1))

/-- Modelled from the spec: corner layout of a grid cube used by the
Marching Cubes extractor of section 4.3, whose implementation
(scikit-image's `measure.marching_cubes`) is not under `src/`.  Corner `c`
sits at this (x, y, z) offset inside the cube. -/
def cornerOffset : ℕ → ℕ × ℕ × ℕ
  | 0 => (0, 0, 0)
  | 1 => (1, 0, 0)
  | 2 => (1, 1, 0)
  | 3 => (0, 1, 0)
  | 4 => (0, 0, 1)
  | 5 => (1, 0, 1)
  | 6 => (1, 1, 1)
  | _ => (0, 1, 1)

/-- Modelled from the spec: the two corners joined by each of the 12 cube
edges (section 4.3 step 3 interpolates a surface vertex on every edge whose
endpoints have opposite sign). -/
def edgeCorners : ℕ → ℕ × ℕ
  | 0 => (0, 1)
  | 1 => (1, 2)
  | 2 => (2, 3)
  | 3 => (3, 0)
  | 4 => (4, 5)
  | 5 => (5, 6)
  | 6 => (6, 7)
  | 7 => (7, 4)
  | 8 => (0, 4)
  | 9 => (1, 5)
  | 10 => (2, 6)
  | _ => (3, 7)

/-- Modelled from the spec: the four boundary edges of each of the six cube
faces, in cyclic order; used to trace the iso-surface polygon of a sign
configuration (section 4.3 step 4, the fixed triangulation table). -/
def faceEdgeCycles : List (List ℕ) :=
  [[0, 1, 2, 3], [4, 5, 6, 7], [0, 9, 4, 8], [2, 11, 6, 10], [3, 11, 7, 8], [1, 10, 5, 9]]

/-- Consecutive pairing of the crossed edges of one cube face; a face has 0, 2
or 4 crossed edges, and this fixed pairing is the spec's "single fixed,
documented triangulation table applied consistently" for ambiguous faces. -/
def pairUp : List ℕ → List (ℕ × ℕ)
  | a :: b :: rest => (a, b) :: pairUp rest
  | _ => []

/-- Removes the first occurrence of a segment from a segment list. -/
def removeSeg (s : ℕ × ℕ) : List (ℕ × ℕ) → List (ℕ × ℕ)
  | [] => []
  | t :: rest => if t = s then rest else t :: removeSeg s rest

/-- Chains face segments starting from one endpoint into a surface loop;
returns the loop and the unused segments.  Fuel bounds the recursion. -/
def extendLoop : ℕ → ℕ → List (ℕ × ℕ) → List ℕ → List ℕ × List (ℕ × ℕ)
  | 0, _, segs, acc => (acc, segs)
  | fuel + 1, current, segs, acc =>
    match segs.find? (fun s => decide (s.1 = current) || decide (s.2 = current)) with
    | none => (acc, segs)
    | some s =>
      let nxt := if s.1 = current then s.2 else s.1
      extendLoop fuel nxt (removeSeg s segs) (acc ++ [nxt])

/-- Assembles all face segments of a cube into surface loops. -/
def buildLoops : ℕ → List (ℕ × ℕ) → List (List ℕ)
  | 0, _ => []
  | _ + 1, [] => []
  | fuel + 1, s :: rest =>
    let step := extendLoop (fuel + 1) s.2 rest [s.1, s.2]
    step.1 :: buildLoops fuel step.2

/-- Triangle fan over the tail of a loop anchored at the loop's head. -/
def fanAux (v0 : ℕ) : List ℕ → List (ℕ × ℕ × ℕ)
  | a :: b :: rest => (v0, a, b) :: fanAux v0 (b :: rest)
  | _ => []

/-- Fan triangulation of one surface loop (section 4.3 step 4: "emit the
triangle fan prescribed by the configuration's triangle table"). -/
def fanTriangles : List ℕ → List (ℕ × ℕ × ℕ)
  | [] => []
  | v0 :: rest => fanAux v0 rest

/-- Modelled from the spec: the configuration-to-triangles lookup of section
4.3.  Given the inside/outside classification of the 8 corners, the edges
crossed by the surface are paired along cube faces, chained into loops and
fan-triangulated; a configuration whose corners all share a sign (in
particular an iso-value outside the sampled range) contributes no
triangles.  Each emitted triple names the cube edges carrying the
triangle's vertices. -/
def cubeTriangleEdges (inside : ℕ → Bool) : List (ℕ × ℕ × ℕ) :=
  let crossed := fun e => inside (edgeCorners e).1 != inside (edgeCorners e).2
  let segs := List.foldr (fun f acc => pairUp (f.filter crossed) ++ acc) [] faceEdgeCycles
  let loops := buildLoops (segs.length + 1) segs
  List.foldr (fun lp acc => fanTriangles lp ++ acc) [] loops

/-- World position of grid vertex `(i, j, k)`: the sampling origin plus the
index scaled by the grid spacing. -/
def gridPoint (origin spacing : Pt) (i j k : ℕ) : Pt :=
  (origin.1 + i * spacing.1, origin.2.1 + j * spacing.2.1, origin.2.2 + k * spacing.2.2)

/-- Modelled from the spec: edge interpolation of section 4.3 step 3,
`t = (isoValue - v0) / (v1 - v0)` clamped to `[0, 1]`. -/
def interpEdge (iso v0 v1 : ℚ) (p0 p1 : Pt) : Pt :=
  let t := (iso - v0) / (v1 - v0)
  let tc := max 0 (min 1 t)
  ptAdd p0 (ptSmul tc (ptSub p1 p0))

/-- Modelled from the spec: triangles contributed by the grid cube at
`(i, j, k)` (section 4.3).  Corners are classified inside when
`value < isoValue`; crossed edges get interpolated surface vertices. -/
def cubeSoup (values : ℕ → ℕ → ℕ → ℚ) (iso : ℚ) (origin spacing : Pt)
    (i j k : ℕ) : List (Pt × Pt × Pt) :=
  let cidx := fun c => let o := cornerOffset c; (i + o.1, j + o.2.1, k + o.2.2)
  let cval := fun c => let ci := cidx c; values ci.1 ci.2.1 ci.2.2
  let cpos := fun c => let ci := cidx c; gridPoint origin spacing ci.1 ci.2.1 ci.2.2
  let inside := fun c => decide (cval c < iso)
  let epoint := fun e =>
    let ec := edgeCorners e
    interpEdge iso (cval ec.1) (cval ec.2) (cpos ec.1) (cpos ec.2)
  (cubeTriangleEdges inside).map (fun t => (epoint t.1, epoint t.2.1, epoint t.2.2))

/-- Index triples of the `(n-1)³` grid cubes. -/
def allCubes (n : ℕ) : List (ℕ × ℕ × ℕ) :=
  (List.range (n - 1)).foldr (fun i acc1 =>
    (List.range (n - 1)).foldr (fun j acc2 =>
      (List.range (n - 1)).foldr (fun k acc3 => (i, j, k) :: acc3) acc2) acc1) []

/-- Modelled from the spec: the raw triangle soup of the extractor, the
concatenation of the per-cube triangle lists (sections 4.3 and 5). -/
def mcSoup (values : ℕ → ℕ → ℕ → ℚ) (n : ℕ) (iso : ℚ)
    (origin spacing : Pt) : List (Pt × Pt × Pt) :=
  List.foldr (fun c acc => cubeSoup values iso origin spacing c.1 c.2.1 c.2.2 ++ acc)
    [] (allCubes n)

/-- Position of a point in a vertex list (first occurrence). -/
def posOf (p : Pt) : List Pt → ℕ
  | [] => 0
  | q :: rest => if q = p then 0 else posOf p rest + 1

/-- Modelled from the spec: vertex welding of section 4.4 — coincident
positions are merged into one vertex, kept in order of first appearance. -/
def collectVerts (soup : List (Pt × Pt × Pt)) : List Pt :=
  let pts := List.foldr (fun t acc => t.1 :: t.2.1 :: t.2.2 :: acc) [] soup
  List.foldl (fun acc p => if p ∈ acc then acc else acc ++ [p]) [] pts

/-- Face normal via the cross product of two edge vectors (section 4.4). -/
def faceNormalQ (v0 v1 v2 : Pt) : Pt :=
  ptCross (ptSub v1 v0) (ptSub v2 v0)

/-- Modelled from the spec: per-vertex normal as the sum of adjacent face
normals (section 4.4; the final scalar normalization of each sum is not
representable over ℚ and is omitted, which no claim inspects). -/
def vertexNormals (verts : List Pt) (faces : List (ℕ × ℕ × ℕ)) : List Pt :=
  (List.range verts.length).map (fun i =>
    List.foldr (fun f acc =>
      if f.1 = i ∨ f.2.1 = i ∨ f.2.2 = i then
        ptAdd acc (faceNormalQ (verts.getD f.1 (0, 0, 0)) (verts.getD f.2.1 (0, 0, 0))
          (verts.getD f.2.2 (0, 0, 0)))
      else acc) (0, 0, 0) faces)

/-- Modelled from the spec: `measure.marching_cubes` of scikit-image, the
third-party extractor invoked by `generate_mesh` (its code is not under
`src/`).  Following sections 4.3 and 4.4 it samples the cube soup, welds
coincident vertices, indexes the faces and computes vertex normals,
returning `(vertices, faces, normals)`.  Extraction is total: an iso-value
outside the sampled range yields an empty triangle set, not an error. -/
def measure_marching_cubes (values : ℕ → ℕ → ℕ → ℚ) (n : ℕ) (iso : ℚ)
    (spacing origin : Pt) : List Pt × List (ℕ × ℕ × ℕ) × List Pt :=
  let soup := mcSoup values n iso origin spacing
  let verts := collectVerts soup
  let faces := soup.map (fun t => (posOf t.1 verts, posOf t.2.1 verts, posOf t.2.2 verts))
  (verts, faces, vertexNormals verts faces)

/-- Sorts a face's three indices (used to compare faces up to winding). -/
def sortTriple (f : ℕ × ℕ × ℕ) : ℕ × ℕ × ℕ :=
  let lo := min f.1 (min f.2.1 f.2.2)
  let hi := max f.1 (max f.2.1 f.2.2)
  (lo, f.1 + f.2.1 + f.2.2 - lo - hi, hi)

/-- A face with two or more identical vertex indices (section 4.4). -/
def degenerateFace (f : ℕ × ℕ × ℕ) : Bool :=
  decide (f.1 = f.2.1) || decide (f.2.1 = f.2.2) || decide (f.1 = f.2.2)

/-- Modelled from the spec: `trimesh.Trimesh.remove_duplicate_faces`, called
by `generate_mesh`; per section 4.4, faces with repeated vertex indices and
faces duplicating an already kept face (same index set) are dropped. -/
def remove_duplicate_faces (m : MeshQ) : MeshQ :=
  let keep := List.foldl (fun acc f =>
    if degenerateFace f then acc
    else if sortTriple f ∈ acc.map sortTriple then acc
    else acc ++ [f]) [] m.faces
  MeshQ.mk m.vertices keep m.normals

/-- Modelled from the spec: `trimesh.Trimesh.remove_unreferenced_vertices`,
called by `generate_mesh`; per section 4.4, vertices not used by any face
are dropped (together with their normals) and face indices are compacted. -/
def remove_unreferenced_vertices (m : MeshQ) : MeshQ :=
  let referenced := (List.range m.vertices.length).filter (fun i =>
    m.faces.any (fun f => decide (f.1 = i) || decide (f.2.1 = i) || decide (f.2.2 = i)))
  let newIdx := fun i => (referenced.filter (fun j => decide (j < i))).length
  MeshQ.mk (referenced.map (fun i => m.vertices.getD i (0, 0, 0)))
    (m.faces.map (fun f => (newIdx f.1, newIdx f.2.1, newIdx f.2.2)))
    (referenced.map (fun i => m.normals.getD i (0, 0, 0)))

/-- Default bounding box of `generate_mesh` (src/geometry/marching_cubes.py
line 58). -/
def defaultBounds : (ℚ × ℚ) × (ℚ × ℚ) × (ℚ × ℚ) :=
  ((-5, 5), (-5, 5), (-5, 5))

/-- `generate_mesh` (src/geometry/marching_cubes.py lines 20-101), on the
primary path (scikit-image importable).  Defaults the bounds, samples the
field on the `linspace` grid through `ScalarField.__call__`, hands the
sampled values to the extractor with the computed spacing and origin, and
runs the two trimesh cleanup passes.  The source performs no input
validation; when `resolution == 1` the spacing expression
`(x_max - x_min) / (resolution - 1)` raises Python's `ZeroDivisionError`
(after the field has already been sampled at line 72), modelled as the
`zeroDivisionError` outcome. -/
def generate_mesh (field : ScalarFieldQ) (resolution : ℕ) (iso_value : ℚ)
    (bounds : Option ((ℚ × ℚ) × (ℚ × ℚ) × (ℚ × ℚ))) : Except PyErr MeshQ :=
  let b := match bounds with
    | none => defaultBounds
    | some bb => bb
  let xmin := b.1.1
  let xmax := b.1.2
  let ymin := b.2.1.1
  let ymax := b.2.1.2
  let zmin := b.2.2.1
  let zmax := b.2.2.2
  let xs := linspace xmin xmax resolution
  let ys := linspace ymin ymax resolution
  let zs := linspace zmin zmax resolution
  let field_values := fun i j k => field.call (xs.getD i 0) (ys.getD j 0) (zs.getD k 0)
  if resolution = 1 then
    Except.error PyErr.zeroDivisionError
  else
    let dx := (xmax - xmin) / ((resolution : ℚ) - 1)
    let dy := (ymax - ymin) / ((resolution : ℚ) - 1)
    let dz := (zmax - zmin) / ((resolution : ℚ) - 1)
    let r := measure_marching_cubes field_values resolution iso_value (dx, dy, dz)
      (xmin, ymin, zmin)
    let mesh := MeshQ.mk r.1 r.2.1 r.2.2
    let mesh := remove_duplicate_faces mesh
    let mesh := remove_unreferenced_vertices mesh
    Except.ok mesh

/-- `trimesh.Trimesh.edges`: each face contributes its three directed
boundary edges, so `len(mesh.edges) = 3 * len(mesh.faces)`. -/
def MeshQ.edges (m : MeshQ) : List (ℕ × ℕ) :=
  List.foldr (fun f acc => (f.1, f.2.1) :: (f.2.1, f.2.2) :: (f.2.2, f.1) :: acc) [] m.faces

/-- Whether two directed edges coincide as unordered vertex pairs. -/
def undirEq (e1 e2 : ℕ × ℕ) : Bool :=
  (decide (e1 = e2)) || (decide (e1.1 = e2.2) && decide (e1.2 = e2.1))

/-- Modelled from the spec: `trimesh.Trimesh.is_watertight` (not under
`src/`); per section 4.5, every unordered vertex-pair edge is shared by
exactly two faces. -/
def is_watertight (m : MeshQ) : Bool :=
  m.edges.all (fun e => decide ((m.edges.filter (fun e2 => undirEq e e2)).length = 2))

/-- Modelled from the spec: `trimesh.Trimesh.is_winding_consistent` (not
under `src/`); consistent orientation of section 3 — every directed edge is
traversed as often as its reverse, so the two faces sharing an edge wind it
in opposite directions. -/
def is_winding_consistent (m : MeshQ) : Bool :=
  m.edges.all (fun e =>
    decide ((m.edges.filter (fun e2 => decide (e2 = e))).length
      = (m.edges.filter (fun e2 => decide (e2 = (e.2, e.1)))).length))

/-- Modelled from the spec: `trimesh.Trimesh.volume` (not under `src/`); the
divergence-theorem signed-tetrahedron volume of section 4.5,
`V = (1/6) Σ v0 · (v1 × v2)` over all faces. -/
def trimesh_volume (m : MeshQ) : ℚ :=
  (1 / 6) * List.foldr (fun f acc =>
    ptDot (m.vertices.getD f.1 (0, 0, 0))
      (ptCross (m.vertices.getD f.2.1 (0, 0, 0)) (m.vertices.getD f.2.2 (0, 0, 0))) + acc)
    0 m.faces

/-- Modelled from the spec: `trimesh.Trimesh.is_volume` (not under `src/`);
per section 3, watertight AND consistently oriented AND nonzero volume. -/
def is_volume (m : MeshQ) : Bool :=
  is_watertight m && is_winding_consistent m && decide (trimesh_volume m ≠ 0)

/-- `calculate_volume` (src/geometry/industrial.py lines 15-43): 0.0 for a
mesh that is not a volume, otherwise the mesh volume. -/
def calculate_volume (m : MeshQ) : ℚ :=
  if is_volume m then trimesh_volume m else 0

/-- Modelled from the spec: `trimesh.Trimesh.bounds` (not under `src/`); per
section 4.5 the componentwise min/max over all vertex positions, and per
section 4.5's empty-mesh sentence the empty mesh yields the all-zero,
zero-extent box. -/
def trimesh_bounds (m : MeshQ) : (ℚ × ℚ) × (ℚ × ℚ) × (ℚ × ℚ) :=
  match m.vertices with
  | [] => ((0, 0), (0, 0), (0, 0))
  | v :: rest =>
    List.foldl (fun acc p =>
      ((min acc.1.1 p.1, max acc.1.2 p.1),
       (min acc.2.1.1 p.2.1, max acc.2.1.2 p.2.1),
       (min acc.2.2.1 p.2.2, max acc.2.2.2 p.2.2)))
      ((v.1, v.1), (v.2.1, v.2.1), (v.2.2, v.2.2)) rest

/-- `calculate_bounding_box` (src/geometry/industrial.py lines 46-76): the
per-axis (min, max) pairs of `mesh.bounds`. -/
def calculate_bounding_box (m : MeshQ) : (ℚ × ℚ) × (ℚ × ℚ) × (ℚ × ℚ) :=
  trimesh_bounds m

/-- `calculate_dimensions` (src/geometry/industrial.py lines 79-106): width,
height and depth as max minus min per axis. -/
def calculate_dimensions (m : MeshQ) : ℚ × ℚ × ℚ :=
  let bbox := calculate_bounding_box m
  (bbox.1.2 - bbox.1.1, bbox.2.1.2 - bbox.2.1.1, bbox.2.2.2 - bbox.2.2.1)

/-- Area of one triangle: half the magnitude of the edge cross product
(section 4.5); the square root forces this into ℝ. -/
noncomputable def triangleArea (v0 v1 v2 : Pt) : ℝ :=
  Real.sqrt ((ptNormSq (faceNormalQ v0 v1 v2) : ℚ) : ℝ) / 2

/-- Modelled from the spec: `trimesh.Trimesh.area` (not under `src/`); per
section 4.5 the sum of the triangle areas. -/
noncomputable def trimesh_area (m : MeshQ) : ℝ :=
  List.foldr (fun f acc =>
    triangleArea (m.vertices.getD f.1 (0, 0, 0)) (m.vertices.getD f.2.1 (0, 0, 0))
      (m.vertices.getD f.2.2 (0, 0, 0)) + acc) 0 m.faces

/-- The dictionary returned by `analyze_geometry`
(src/geometry/industrial.py lines 144-154). -/
structure AnalysisResult where
  volume : ℚ
  surface_area : ℝ
  bbox : (ℚ × ℚ) × (ℚ × ℚ) × (ℚ × ℚ)
  dimensions : ℚ × ℚ × ℚ
  is_watertight : Bool
  is_volume : Bool
  vertex_count : ℕ
  face_count : ℕ
  edge_count : ℕ

/-- `analyze_geometry` (src/geometry/industrial.py lines 109-154). -/
noncomputable def analyze_geometry (m : MeshQ) : AnalysisResult :=
  AnalysisResult.mk (calculate_volume m) (trimesh_area m) (calculate_bounding_box m)
    (calculate_dimensions m) (is_watertight m) (is_volume m)
    m.vertices.length m.faces.length m.edges.length

/-- The dictionary returned by `estimate_material_usage`
(src/geometry/industrial.py lines 204-209). -/
structure MaterialUsage where
  volume : ℝ
  material_volume : ℝ
  mass : ℝ
  density : ℝ

/-- `estimate_material_usage` (src/geometry/industrial.py lines 157-209):
with a positive wall thickness the material volume is surface area times
thickness, otherwise the solid volume; mass converts mm³ to cm³ through the
fixed factor 1000 and multiplies by the density. -/
noncomputable def estimate_material_usage (m : MeshQ) (material_density : ℝ)
    (wall_thickness : Option ℝ) : MaterialUsage :=
  let volume_mm3 : ℝ := ((calculate_volume m : ℚ) : ℝ)
  let material_volume_mm3 :=
    match wall_thickness with
    | some w => if 0 < w then trimesh_area m * w else volume_mm3
    | none => volume_mm3
  let volume_cm3 := material_volume_mm3 / 1000
  let mass_g := volume_cm3 * material_density
  MaterialUsage.mk volume_mm3 material_volume_mm3 mass_g material_density

/-- The constant field of value +5 of the specification's scenario 5,
wrapped as a `ScalarField` with the default scale and offset. -/
def constField5 : ScalarFieldQ :=
  ScalarFieldQ.mk 1 0 0 0 (fun _ _ _ => 5)

/-- The empty mesh: zero vertices, zero faces. -/
def emptyMeshQ : MeshQ :=
  MeshQ.mk [] [] []

/-- A concrete watertight, consistently oriented tetrahedron. -/
def tetraMesh : MeshQ :=
  MeshQ.mk [(0, 0, 0), (1, 0, 0), (0, 1, 0), (0, 0, 1)]
    [(0, 2, 1), (0, 1, 3), (0, 3, 2), (1, 2, 3)] []

theorem mapThree_map_eq (g : α' → β' → γ' → δ) (f1 : α → α') (f2 : β → β') (f3 : γ → γ') :
    ∀ (as : List α) (bs : List β) (cs : List γ),
      mapThree g (as.map f1) (bs.map f2) (cs.map f3)
        = mapThree (fun a b c => g (f1 a) (f2 b) (f3 c)) as bs cs := by
  intro as
  induction as with
  | nil => intro bs cs; simp [mapThree]
  | cons a as ih =>
    intro bs cs
    cases bs with
    | nil => simp [mapThree]
    | cons b bs =>
      cases cs with
      | nil => simp [mapThree]
      | cons c cs => simp [mapThree, ih]

/-- C5: calling a `ScalarField` as `field(x, y, z)` — on scalars or on
equal-length coordinate sequences — applies the affine transform
`(x*scale+offsetX, y*scale+offsetY, z*scale+offsetZ)` to the coordinates
before delegating to `evaluate`. -/
theorem c5_call_applies_affine_transform (F : ScalarField) (x y z : ℝ)
    (xs ys zs : List ℝ) :
    F.call x y z
      = F.evaluate (x * F.scale + F.offsetX) (y * F.scale + F.offsetY) (z * F.scale + F.offsetZ)
    ∧ F.callSeq xs ys zs = mapThree F.call xs ys zs := by
  constructor
  · rfl
  · unfold ScalarField.callSeq
    rw [mapThree_map_eq]
    rfl

/-- C6: with thickness 0, `Gyroid.evaluate` is
`sin(x)cos(y) + sin(y)cos(z) + sin(z)cos(x)` and `SchwarzP.evaluate` is
`cos(x) + cos(y) + cos(z)`; a SchwarzP of scale 1 and thickness 0 called at
the origin yields exactly 3, and a Gyroid of scale 1 called at the origin
yields 0 within 1e-10. -/
theorem c6_base_formulas (g : Gyroid) (s : SchwarzP)
    (hg : g.thickness = 0) (hs : s.thickness = 0) (x y z : ℝ) :
    g.evaluate x y z
      = Real.sin x * Real.cos y + Real.sin y * Real.cos z + Real.sin z * Real.cos x
    ∧ s.evaluate x y z = Real.cos x + Real.cos y + Real.cos z
    ∧ (SchwarzP.mk 1 0).call 0 0 0 = 3
    ∧ |(Gyroid.mk 1 0).call 0 0 0| ≤ 1 / 10 ^ 10 := by
  refine ⟨?_, ?_, ?_, ?_⟩
  · simp [Gyroid.evaluate, gyroidValue, hg]
  · simp [SchwarzP.evaluate, schwarzPValue, hs]
  · simp [SchwarzP.call, SchwarzP.toField, ScalarField.call, SchwarzP.evaluate, schwarzPValue]
    norm_num
  · simp [Gyroid.call, Gyroid.toField, ScalarField.call, Gyroid.evaluate, gyroidValue]

theorem c6_base_formulas_witness :
    (Gyroid.mk 2 0).evaluate 1 2 3
      = Real.sin 1 * Real.cos 2 + Real.sin 2 * Real.cos 3 + Real.sin 3 * Real.cos 1
    ∧ (SchwarzP.mk 3 0).evaluate 1 2 3 = Real.cos 1 + Real.cos 2 + Real.cos 3
    ∧ (SchwarzP.mk 1 0).call 0 0 0 = 3
    ∧ |(Gyroid.mk 1 0).call 0 0 0| ≤ 1 / 10 ^ 10 :=
  c6_base_formulas (Gyroid.mk 2 0) (SchwarzP.mk 3 0) rfl rfl 1 2 3

/-- C7: with thickness `t > 0`, `Gyroid.evaluate` and `SchwarzP.evaluate`
return `|f| - t` where `f` is the respective base formula; with thickness 0
the base formula is returned unchanged. -/
theorem c7_thickness_shell (g : Gyroid) (s : SchwarzP) (g0 : Gyroid) (s0 : SchwarzP)
    (hg : 0 < g.thickness) (hs : 0 < s.thickness)
    (hg0 : g0.thickness = 0) (hs0 : s0.thickness = 0) (x y z : ℝ) :
    g.evaluate x y z = |gyroidValue x y z| - g.thickness
    ∧ s.evaluate x y z = |schwarzPValue x y z| - s.thickness
    ∧ g0.evaluate x y z = gyroidValue x y z
    ∧ s0.evaluate x y z = schwarzPValue x y z := by
  refine ⟨?_, ?_, ?_, ?_⟩ <;>
    simp [Gyroid.evaluate, SchwarzP.evaluate, hg, hs, hg0, hs0]

theorem c7_thickness_shell_witness :
    (Gyroid.mk 1 (1 / 2)).evaluate 1 2 3 = |gyroidValue 1 2 3| - (Gyroid.mk 1 (1 / 2)).thickness
    ∧ (SchwarzP.mk 1 (1 / 3)).evaluate 1 2 3
      = |schwarzPValue 1 2 3| - (SchwarzP.mk 1 (1 / 3)).thickness
    ∧ (Gyroid.mk 1 0).evaluate 1 2 3 = gyroidValue 1 2 3
    ∧ (SchwarzP.mk 1 0).evaluate 1 2 3 = schwarzPValue 1 2 3 :=
  c7_thickness_shell (Gyroid.mk 1 (1 / 2)) (SchwarzP.mk 1 (1 / 3))
    (Gyroid.mk 1 0) (SchwarzP.mk 1 0) (by norm_num) (by norm_num) rfl rfl 1 2 3

/-- C1: over any sampled grid (resolution at least 2, the SampledGrid
invariant), `generate_mesh` is total — it returns a mesh, never an error —
and for the constant field +5 extracted at iso-value 0 it returns the empty
mesh with 0 vertices and 0 faces. -/
theorem c1_generate_mesh_total (f : ScalarFieldQ) (res : ℕ) (iso : ℚ)
    (b : Option ((ℚ × ℚ) × (ℚ × ℚ) × (ℚ × ℚ))) (h : 2 ≤ res) :
    (generate_mesh f res iso b).isOk = true
    ∧ generate_mesh constField5 2 0 none = Except.ok emptyMeshQ := by
  constructor
  · have hne : res ≠ 1 := by omega
    simp [generate_mesh, hne, Except.isOk, Except.toBool]
  · rfl

theorem c1_generate_mesh_total_witness :
    (generate_mesh constField5 2 0 none).isOk = true
    ∧ generate_mesh constField5 2 0 none = Except.ok emptyMeshQ :=
  c1_generate_mesh_total constField5 2 0 none (by norm_num)

/-- C2 counterexample: with resolution 1 (< 2), `generate_mesh` on the
constant field +5 does not raise `InvalidInput`; it samples the field and
then fails with Python's `ZeroDivisionError` while computing the grid
spacing. -/
theorem c2_counterexample_no_invalid_input :
    generate_mesh constField5 1 0 none = Except.error PyErr.zeroDivisionError
    ∧ generate_mesh constField5 1 0 none ≠ Except.error PyErr.invalidInput := by
  constructor
  · rfl
  · intro h
    have h2 := (show generate_mesh constField5 1 0 none
      = Except.error PyErr.zeroDivisionError from rfl).symm.trans h
    injection h2 with h3
    exact PyErr.noConfusion h3

/-- C2 amended: `generate_mesh` performs no input validation and never
raises an `InvalidInput` condition, for any resolution or bounding box;
with resolution 1 it fails with `ZeroDivisionError` after sampling, and a
degenerate bounding box is accepted without any validation error. -/
theorem c2_amended_never_invalid_input (f : ScalarFieldQ) (res : ℕ) (iso : ℚ)
    (b : Option ((ℚ × ℚ) × (ℚ × ℚ) × (ℚ × ℚ))) :
    generate_mesh f res iso b ≠ Except.error PyErr.invalidInput := by
  by_cases hres : res = 1
  · subst hres
    intro h
    simp [generate_mesh] at h
  · intro h
    simp [generate_mesh, hres] at h

/-- C3: on the empty mesh, `analyze_geometry` yields all-zero metrics —
volume 0, surface area 0, a zero-extent bounding box, zero dimensions and
zero vertex/face/edge counts. -/
theorem c3_empty_mesh_all_zero :
    (analyze_geometry emptyMeshQ).volume = 0
    ∧ (analyze_geometry emptyMeshQ).surface_area = 0
    ∧ (analyze_geometry emptyMeshQ).bbox = ((0, 0), (0, 0), (0, 0))
    ∧ (analyze_geometry emptyMeshQ).dimensions = (0, 0, 0)
    ∧ (analyze_geometry emptyMeshQ).vertex_count = 0
    ∧ (analyze_geometry emptyMeshQ).face_count = 0
    ∧ (analyze_geometry emptyMeshQ).edge_count = 0 := by
  refine ⟨?_, rfl, rfl, ?_, rfl, rfl, rfl⟩
  · simp [analyze_geometry, calculate_volume, is_volume, trimesh_volume, emptyMeshQ]
  · simp [analyze_geometry, calculate_dimensions, calculate_bounding_box, trimesh_bounds,
      emptyMeshQ]

/-- C4: a mesh that is not a watertight, consistently oriented closed
volume gets volume 0 from `calculate_volume` and from `analyze_geometry`
(with `is_volume = false`); a watertight, consistently oriented mesh gets
the divergence-theorem signed-tetrahedron volume. -/
theorem c4_volume_watertight_gate (m1 m2 : MeshQ) (h1 : is_volume m1 = false)
    (h2 : is_watertight m2 = true) (h2w : is_winding_consistent m2 = true) :
    calculate_volume m1 = 0
    ∧ (analyze_geometry m1).volume = 0
    ∧ (analyze_geometry m1).is_volume = false
    ∧ calculate_volume m2 = trimesh_volume m2
    ∧ (analyze_geometry m2).volume = trimesh_volume m2 := by
  have e1 : calculate_volume m1 = 0 := by simp [calculate_volume, h1]
  have e2 : calculate_volume m2 = trimesh_volume m2 := by
    by_cases hv : trimesh_volume m2 = 0
    · simp [calculate_volume, hv]
    · have hvol : is_volume m2 = true := by simp [is_volume, h2, h2w, hv]
      simp [calculate_volume, hvol]
  exact ⟨e1, e1, h1, e2, e2⟩

theorem c4_volume_watertight_gate_witness :
    calculate_volume emptyMeshQ = 0
    ∧ (analyze_geometry emptyMeshQ).volume = 0
    ∧ (analyze_geometry emptyMeshQ).is_volume = false
    ∧ calculate_volume tetraMesh = trimesh_volume tetraMesh
    ∧ (analyze_geometry tetraMesh).volume = trimesh_volume tetraMesh :=
  c4_volume_watertight_gate emptyMeshQ tetraMesh
    (by simp [is_volume, trimesh_volume, emptyMeshQ]) (by decide) (by decide)

/-- C8: with a positive wall thickness the estimated material volume is
surface area times thickness, otherwise (no thickness, or a non-positive
one) it is the mesh's solid volume; in all cases the mass is the material
volume divided by the fixed factor 1000 and multiplied by the density. -/
theorem c8_material_usage (m : MeshQ) (d w w2 : ℝ) (hw : 0 < w) (hw2 : w2 ≤ 0) :
    (estimate_material_usage m d (some w)).material_volume = trimesh_area m * w
    ∧ (estimate_material_usage m d (some w)).mass = trimesh_area m * w / 1000 * d
    ∧ (estimate_material_usage m d (some w2)).material_volume = ((calculate_volume m : ℚ) : ℝ)
    ∧ (estimate_material_usage m d (some w2)).mass = ((calculate_volume m : ℚ) : ℝ) / 1000 * d
    ∧ (estimate_material_usage m d none).material_volume = ((calculate_volume m : ℚ) : ℝ)
    ∧ (estimate_material_usage m d none).mass = ((calculate_volume m : ℚ) : ℝ) / 1000 * d := by
  have hnot : ¬ (0 < w2) := not_lt.mpr hw2
  refine ⟨?_, ?_, ?_, ?_, ?_, ?_⟩ <;> simp [estimate_material_usage, hw, hnot]

theorem c8_material_usage_witness :
    (estimate_material_usage emptyMeshQ 2 (some 3)).material_volume = trimesh_area emptyMeshQ * 3
    ∧ (estimate_material_usage emptyMeshQ 2 (some 3)).mass = trimesh_area emptyMeshQ * 3 / 1000 * 2
    ∧ (estimate_material_usage emptyMeshQ 2 (some 0)).material_volume
      = ((calculate_volume emptyMeshQ : ℚ) : ℝ)
    ∧ (estimate_material_usage emptyMeshQ 2 (some 0)).mass
      = ((calculate_volume emptyMeshQ : ℚ) : ℝ) / 1000 * 2
    ∧ (estimate_material_usage emptyMeshQ 2 none).material_volume
      = ((calculate_volume emptyMeshQ : ℚ) : ℝ)
    ∧ (estimate_material_usage emptyMeshQ 2 none).mass
      = ((calculate_volume emptyMeshQ : ℚ) : ℝ) / 1000 * 2 :=
  c8_material_usage emptyMeshQ 2 3 0 (by norm_num) le_rfl

/-- C9: `generate_mesh` is deterministic — two invocations on equal field,
resolution, iso-value and bounds produce identical results (identical
vertex positions, face index triples and normals); the embedded pipeline
is a pure function with no randomness or run-order dependence. -/
theorem c9_deterministic (f1 f2 : ScalarFieldQ) (r1 r2 : ℕ) (i1 i2 : ℚ)
    (b1 b2 : Option ((ℚ × ℚ) × (ℚ × ℚ) × (ℚ × ℚ)))
    (hf : f1 = f2) (hr : r1 = r2) (hi : i1 = i2) (hb : b1 = b2) :
    generate_mesh f1 r1 i1 b1 = generate_mesh f2 r2 i2 b2 := by
  rw [hf, hr, hi, hb]

theorem c9_deterministic_witness :
    generate_mesh constField5 2 0 none = generate_mesh constField5 2 0 none :=
  c9_deterministic constField5 constField5 2 2 0 0 none none rfl rfl rfl rfl

/-- C10: calling `generate_mesh` without a bounds argument samples over the
default box ((-5, 5), (-5, 5), (-5, 5)) — for every field, resolution and
iso-value the result equals the result with that box passed explicitly. -/
theorem c10_default_bounds (f : ScalarFieldQ) (res : ℕ) (iso : ℚ) :
    generate_mesh f res iso none = generate_mesh f res iso (some defaultBounds)
    ∧ defaultBounds = ((-5, 5), (-5, 5), (-5, 5)) :=
  ⟨rfl, rfl⟩

end PhysiCode
